import Mathlib

/-!
Verification of the baseball-analytics engine: a shallow embedding of the
analytics modules (role classifier, regression detector, Statcast detector,
trend tracker, predictive model) together with proofs of the specified
properties.  Numeric values are modelled with exact rationals; Python
rounding (round-half-to-even) and truncation (int()) are modelled
explicitly, as is Python truthiness of optional numeric values.
-/

namespace BaseballAnalytics

/-- Python 3 built-in `round` on rationals: round half to even. -/
def pyRound (x : ℚ) : ℤ :=
  if x - ⌊x⌋ < 1/2 then ⌊x⌋
  else if 1/2 < x - ⌊x⌋ then ⌊x⌋ + 1
  else if Even ⌊x⌋ then ⌊x⌋ else ⌊x⌋ + 1

/-- Python `int()` on rationals: truncation toward zero. -/
def pyTrunc (x : ℚ) : ℤ := if 0 ≤ x then ⌊x⌋ else -⌊-x⌋

theorem pyRound_ge_floor (x : ℚ) : ⌊x⌋ ≤ pyRound x := by
  unfold pyRound; split_ifs <;> omega

theorem pyRound_le_floor_add_one (x : ℚ) : pyRound x ≤ ⌊x⌋ + 1 := by
  unfold pyRound; split_ifs <;> omega

theorem pyRound_mono {a b : ℚ} (h : a ≤ b) : pyRound a ≤ pyRound b := by
  rcases lt_or_ge ⌊a⌋ ⌊b⌋ with hf | hf
  · calc pyRound a ≤ ⌊a⌋ + 1 := pyRound_le_floor_add_one a
      _ ≤ ⌊b⌋ := by omega
      _ ≤ pyRound b := pyRound_ge_floor b
  · have hfe : ⌊a⌋ = ⌊b⌋ := le_antisymm (Int.floor_mono h) hf
    unfold pyRound
    rw [hfe]
    split_ifs <;> first | omega | linarith

theorem pyRound_add_twenty (x : ℚ) : pyRound (x + 20) = pyRound x + 20 := by
  have hf : ⌊x + 20⌋ = ⌊x⌋ + 20 := by
    rw [show ((20 : ℚ)) = ((20 : ℤ) : ℚ) by norm_num, Int.floor_add_int]
  have hfr : x + 20 - ((⌊x⌋ + 20 : ℤ) : ℚ) = x - ⌊x⌋ := by push_cast; ring
  have hev : Even (⌊x⌋ + 20) ↔ Even ⌊x⌋ := by
    constructor
    · intro hE; rcases hE with ⟨k, hk⟩; exact ⟨k - 10, by omega⟩
    · intro hE; rcases hE with ⟨k, hk⟩; exact ⟨k + 10, by omega⟩
  unfold pyRound
  rw [hf, hfr]
  simp only [hev]
  split_ifs <;> omega

theorem pyTrunc_mono {a b : ℚ} (h : a ≤ b) : pyTrunc a ≤ pyTrunc b := by
  unfold pyTrunc
  split_ifs with ha hb hb2
  · exact Int.floor_mono h
  · exact absurd (le_trans ha h) hb
  · have h1 : (0:ℤ) ≤ ⌊b⌋ := Int.floor_nonneg.mpr hb2
    have h2 : (0:ℤ) ≤ ⌊-a⌋ := Int.floor_nonneg.mpr (by push_neg at ha; linarith)
    omega
  · have h1 : ⌊-b⌋ ≤ ⌊-a⌋ := Int.floor_mono (by linarith)
    omega

/-! ## RoleClassifier (src/analytics/role_classifier.py) -/

/-- The nine usage roles of `RoleClassifier.ROLE_DEFINITIONS`. -/
inductive Role
  | EVERYDAY_REGULAR
  | EVERYDAY_PLATOON_LEANING
  | STRONG_SIDE_PLATOON
  | HIGH_LEVERAGE_ROLE_PLAYER
  | ROTATIONAL_REGULAR
  | DEFENSIVE_REPLACEMENT
  | BENCH_BAT
  | UTILITY_DEPTH
  | FRINGE_ROSTER
deriving DecidableEq

/-- Result record of `RoleClassifier.classify_season`. -/
structure RolePrediction where
  role : Role
  confidence : ℚ
  pa_per_team_game : ℚ
  games_played_pct : ℚ
  avg_pa_per_game : ℚ
deriving DecidableEq

/-- The usage decision list of `classify_season` (lines 51-79), applied to the
precomputed ratios `pa_per_team_game` and `games_played_pct`. -/
def usage_role (pa_per_team_game games_played_pct : ℚ) : Role × ℚ :=
  if 3.5 ≤ pa_per_team_game ∧ 0.75 ≤ games_played_pct then
    (.EVERYDAY_REGULAR, 0.95)
  else if 3 ≤ pa_per_team_game ∧ 0.65 ≤ games_played_pct then
    (.EVERYDAY_REGULAR, 0.90)
  else if 2 ≤ pa_per_team_game then
    (.ROTATIONAL_REGULAR, 0.85)
  else if 1 ≤ pa_per_team_game then
    (if games_played_pct < 0.25 then (.DEFENSIVE_REPLACEMENT, 0.75)
     else (.UTILITY_DEPTH, 0.75))
  else
    (.FRINGE_ROSTER, 0.90)

/-- `RoleClassifier.classify_season`: ratios guarded against nonpositive
denominators exactly as in the source (`if team_games > 0 else 0`,
`if games_played > 0 else 0`). -/
def classify_season (games_played pa team_games : ℤ) : RolePrediction :=
  let pa_per_team_game : ℚ :=
    if 0 < team_games then (pa : ℚ) / (team_games : ℚ) else 0
  let games_played_pct : ℚ :=
    if 0 < team_games then (games_played : ℚ) / (team_games : ℚ) else 0
  let avg_pa_per_game : ℚ :=
    if 0 < games_played then (pa : ℚ) / (games_played : ℚ) else 0
  let rc := usage_role pa_per_team_game games_played_pct
  { role := rc.1
    confidence := rc.2
    pa_per_team_game := pa_per_team_game
    games_played_pct := games_played_pct
    avg_pa_per_game := avg_pa_per_game }

/-- The ordering of roles by usage rung used in the monotonicity property:
FRINGE_ROSTER below UTILITY_DEPTH / DEFENSIVE_REPLACEMENT below
ROTATIONAL_REGULAR below EVERYDAY_REGULAR. -/
def usageRung : Role → ℕ
  | .FRINGE_ROSTER => 0
  | .UTILITY_DEPTH => 1
  | .DEFENSIVE_REPLACEMENT => 1
  | .ROTATIONAL_REGULAR => 2
  | .EVERYDAY_REGULAR => 3
  | _ => 0

/-- All nine roles, for the totality property. -/
def allRoles : List Role :=
  [.EVERYDAY_REGULAR, .EVERYDAY_PLATOON_LEANING, .STRONG_SIDE_PLATOON,
   .HIGH_LEVERAGE_ROLE_PLAYER, .ROTATIONAL_REGULAR, .DEFENSIVE_REPLACEMENT,
   .BENCH_BAT, .UTILITY_DEPTH, .FRINGE_ROSTER]

theorem role_mem_allRoles (r : Role) : r ∈ allRoles := by
  cases r <;> simp [allRoles]

/-- Closed form of the usage rung reached by the decision list. -/
def rungVal (x g : ℚ) : ℕ :=
  if 3 ≤ x ∧ 0.65 ≤ g then 3
  else if 2 ≤ x then 2
  else if 1 ≤ x then 1
  else 0

theorem usage_role_rung_eq (x g : ℚ) :
    usageRung (usage_role x g).1 = rungVal x g := by
  unfold usage_role rungVal
  by_cases c1 : 3.5 ≤ x ∧ 0.75 ≤ g
  · rw [if_pos c1, if_pos ⟨by linarith [c1.1], by linarith [c1.2]⟩]; rfl
  · rw [if_neg c1]
    by_cases c2 : 3 ≤ x ∧ 0.65 ≤ g
    · rw [if_pos c2, if_pos c2]; rfl
    · rw [if_neg c2, if_neg c2]
      by_cases c3 : 2 ≤ x
      · rw [if_pos c3, if_pos c3]; rfl
      · rw [if_neg c3, if_neg c3]
        by_cases c4 : 1 ≤ x
        · rw [if_pos c4, if_pos c4]
          by_cases hg : g < 0.25
          · rw [if_pos hg]; rfl
          · rw [if_neg hg]; rfl
        · rw [if_neg c4, if_neg c4]; rfl

theorem rungVal_mono (g : ℚ) {x y : ℚ} (h : x ≤ y) :
    rungVal x g ≤ rungVal y g := by
  unfold rungVal
  by_cases c2x : 3 ≤ x ∧ 0.65 ≤ g
  · rw [if_pos c2x, if_pos ⟨le_trans c2x.1 h, c2x.2⟩]
  · rw [if_neg c2x]
    by_cases c2y : 3 ≤ y ∧ 0.65 ≤ g
    · rw [if_pos c2y]
      split_ifs <;> omega
    · rw [if_neg c2y]
      by_cases c3x : 2 ≤ x
      · rw [if_pos c3x, if_pos (le_trans c3x h)]
      · rw [if_neg c3x]
        by_cases c4x : 1 ≤ x
        · rw [if_pos c4x]
          have c4y : 1 ≤ y := le_trans c4x h
          by_cases c3y : 2 ≤ y
          · rw [if_pos c3y]; omega
          · rw [if_neg c3y, if_pos c4y]
        · rw [if_neg c4x]
          split_ifs <;> omega

/-- Monotonicity of the decision list: for a fixed games-played fraction,
a larger PA-per-team-game ratio never lowers the usage rung. -/
theorem usage_role_rung_mono (g : ℚ) {x y : ℚ} (h : x ≤ y) :
    usageRung (usage_role x g).1 ≤ usageRung (usage_role y g).1 := by
  rw [usage_role_rung_eq, usage_role_rung_eq]
  exact rungVal_mono g h

/-- The ordered decision list of the specification for role classification,
stated from the spec text (section 4.1, rules 1-5), for comparison with
`classify_season`. -/
def role_decision_list_spec (games_played pa team_games : ℤ) : Role × ℚ :=
  let x : ℚ := (pa : ℚ) / (team_games : ℚ)
  let g : ℚ := (games_played : ℚ) / (team_games : ℚ)
  if 3.5 ≤ x ∧ 0.75 ≤ g then (.EVERYDAY_REGULAR, 0.95)
  else if 3 ≤ x ∧ 0.65 ≤ g then (.EVERYDAY_REGULAR, 0.90)
  else if 2 ≤ x then (.ROTATIONAL_REGULAR, 0.85)
  else if 1 ≤ x then
    (if g < 0.25 then (.DEFENSIVE_REPLACEMENT, 0.75) else (.UTILITY_DEPTH, 0.75))
  else (.FRINGE_ROSTER, 0.90)

/-- C5: `classify_season` is total on games_played ≥ 0, pa ≥ 0, team_games > 0
and returns exactly one of the nine roles; moreover, for fixed games_played
and team_games, increasing pa never moves the returned role to a lower rung of
the order FRINGE_ROSTER < (UTILITY_DEPTH, DEFENSIVE_REPLACEMENT) <
ROTATIONAL_REGULAR < EVERYDAY_REGULAR. -/
theorem classify_season_total_and_monotone
    (games_played pa pa2 team_games : ℤ)
    (hg : 0 ≤ games_played) (hp : 0 ≤ pa) (ht : 0 < team_games) (hpp : pa ≤ pa2) :
    (classify_season games_played pa team_games).role ∈ allRoles ∧
    usageRung (classify_season games_played pa team_games).role ≤
      usageRung (classify_season games_played pa2 team_games).role := by
  refine ⟨role_mem_allRoles _, ?_⟩
  have htq : (0 : ℚ) < (team_games : ℚ) := by exact_mod_cast ht
  have hdiv : (pa : ℚ) / (team_games : ℚ) ≤ (pa2 : ℚ) / (team_games : ℚ) := by
    apply div_le_div_of_nonneg_right ?_ htq.le
    exact_mod_cast hpp
  simp only [classify_season, if_pos ht]
  exact usage_role_rung_mono _ hdiv

/-- Witness for C5 at a concrete input. -/
theorem classify_season_total_and_monotone_witness :
    (classify_season 150 300 162).role ∈ allRoles ∧
    usageRung (classify_season 150 300 162).role ≤
      usageRung (classify_season 150 620 162).role :=
  classify_season_total_and_monotone 150 300 620 162 (by decide) (by decide)
    (by decide) (by decide)

/-- C6: `classify_season` implements the ordered, first-match-wins decision
list of the spec, and on games_played = 150, pa = 620, team_games = 162 it
returns EVERYDAY_REGULAR with confidence 0.95. -/
theorem classify_season_decision_list :
    (∀ games_played pa team_games : ℤ, 0 < team_games →
      ((classify_season games_played pa team_games).role,
        (classify_season games_played pa team_games).confidence)
        = role_decision_list_spec games_played pa team_games) ∧
    (classify_season 150 620 162).role = Role.EVERYDAY_REGULAR ∧
    (classify_season 150 620 162).confidence = 0.95 := by
  refine ⟨?_, by simp only [classify_season, usage_role]; norm_num,
    by simp only [classify_season, usage_role]; norm_num⟩
  intro games_played pa team_games ht
  simp only [classify_season, role_decision_list_spec, if_pos ht]
  rfl

/-- Witness for C6 at a concrete input. -/
theorem classify_season_decision_list_witness :
    ((classify_season 150 620 162).role,
      (classify_season 150 620 162).confidence)
      = role_decision_list_spec 150 620 162 :=
  classify_season_decision_list.1 150 620 162 (by decide)

/-- C3 counterexample: a call with team_games = 0 is not rejected; it returns
a normal role classification (FRINGE_ROSTER) with the ratios silently coerced
to 0. -/
theorem classify_season_team_games_zero_returns_role :
    classify_season 150 620 0 =
      { role := Role.FRINGE_ROSTER, confidence := 0.90, pa_per_team_game := 0,
        games_played_pct := 0, avg_pa_per_game := 62/15 } := by
  simp only [classify_season, usage_role]
  norm_num

/-- C3 amended: `classify_season` does not validate team_games; whenever
team_games ≤ 0 it silently coerces pa_per_team_game and games_played_pct to 0
and returns FRINGE_ROSTER with confidence 0.90 instead of raising an
invalid-input error. -/
theorem classify_season_team_games_nonpos (games_played pa team_games : ℤ)
    (h : team_games ≤ 0) :
    classify_season games_played pa team_games =
      { role := Role.FRINGE_ROSTER, confidence := 0.90, pa_per_team_game := 0,
        games_played_pct := 0,
        avg_pa_per_game :=
          if 0 < games_played then (pa : ℚ) / (games_played : ℚ) else 0 } := by
  have ht : ¬ 0 < team_games := not_lt.mpr h
  simp only [classify_season, if_neg ht]
  norm_num [usage_role]

/-- Witness for the amended C3 at a concrete input. -/
theorem classify_season_team_games_nonpos_witness :
    classify_season 150 620 (-5) =
      { role := Role.FRINGE_ROSTER, confidence := 0.90, pa_per_team_game := 0,
        games_played_pct := 0,
        avg_pa_per_game :=
          if 0 < (150 : ℤ) then ((620 : ℤ) : ℚ) / ((150 : ℤ) : ℚ) else 0 } :=
  classify_season_team_games_nonpos 150 620 (-5) (by decide)

/-! ## RegressionDetector (src/analytics/regression_detector.py) -/

/-- BUY/SELL signal of an alert. -/
inductive Signal
  | BUY
  | SELL
deriving DecidableEq

/-- Direction of a regression alert. -/
inductive Direction
  | positive
  | negative
deriving DecidableEq

/-- A regression alert.  Traditional alerts carry direction and the
current/expected/delta values; Statcast alerts carry a confidence label
instead (mirroring the two dict shapes of the source). -/
structure Alert where
  metric : String
  tier : ℕ
  signal : Signal
  direction : Option Direction
  current : Option ℚ
  expected : Option ℚ
  delta : Option ℚ
  confidence : Option String
deriving DecidableEq

/-- `RegressionDetector._determine_tier`. -/
def determine_tier (delta tier1_threshold tier2_threshold tier3_threshold : ℚ) :
    Option ℕ :=
  if tier1_threshold ≤ |delta| then some 1
  else if tier2_threshold ≤ |delta| then some 2
  else if tier3_threshold ≤ |delta| then some 3
  else none

/-- `RegressionDetector.detect_babip_regression` (thresholds 0.050 / 0.030 /
0.015, delta > 0 means SELL). -/
def detect_babip_regression (current_babip career_babip : Option ℚ) :
    Option Alert :=
  match current_babip, career_babip with
  | some c, some b =>
    let delta := c - b
    (determine_tier delta 0.050 0.030 0.015).map (fun t =>
      { metric := "BABIP", tier := t,
        signal := if 0 < delta then .SELL else .BUY,
        direction := some (if 0 < delta then .negative else .positive),
        current := some c, expected := some b, delta := some delta,
        confidence := none })
  | _, _ => none

/-- `RegressionDetector.detect_k_rate_regression` (thresholds 5.0 / 3.0 / 1.5,
delta > 0 means SELL). -/
def detect_k_rate_regression (current_k_pct career_k_pct : Option ℚ) :
    Option Alert :=
  match current_k_pct, career_k_pct with
  | some c, some b =>
    let delta := c - b
    (determine_tier delta 5 3 1.5).map (fun t =>
      { metric := "K%", tier := t,
        signal := if 0 < delta then .SELL else .BUY,
        direction := some (if 0 < delta then .negative else .positive),
        current := some c, expected := some b, delta := some delta,
        confidence := none })
  | _, _ => none

/-- `RegressionDetector.detect_bb_rate_regression` (thresholds 4.0 / 2.5 /
1.5, delta > 0 means BUY). -/
def detect_bb_rate_regression (current_bb_pct career_bb_pct : Option ℚ) :
    Option Alert :=
  match current_bb_pct, career_bb_pct with
  | some c, some b =>
    let delta := c - b
    (determine_tier delta 4 2.5 1.5).map (fun t =>
      { metric := "BB%", tier := t,
        signal := if 0 < delta then .BUY else .SELL,
        direction := some (if 0 < delta then .positive else .negative),
        current := some c, expected := some b, delta := some delta,
        confidence := none })
  | _, _ => none

/-- `RegressionDetector.detect_iso_regression` (thresholds 0.060 / 0.040 /
0.025, delta > 0 means BUY). -/
def detect_iso_regression (current_iso career_iso : Option ℚ) : Option Alert :=
  match current_iso, career_iso with
  | some c, some b =>
    let delta := c - b
    (determine_tier delta 0.060 0.040 0.025).map (fun t =>
      { metric := "ISO", tier := t,
        signal := if 0 < delta then .BUY else .SELL,
        direction := some (if 0 < delta then .positive else .negative),
        current := some c, expected := some b, delta := some delta,
        confidence := none })
  | _, _ => none

/-- `RegressionDetector.detect_hr_fb_regression` (thresholds 8.0 / 5.0 / 3.0,
delta > 0 means SELL). -/
def detect_hr_fb_regression (current_hr_fb career_hr_fb : Option ℚ) :
    Option Alert :=
  match current_hr_fb, career_hr_fb with
  | some c, some b =>
    let delta := c - b
    (determine_tier delta 8 5 3).map (fun t =>
      { metric := "HR/FB%", tier := t,
        signal := if 0 < delta then .SELL else .BUY,
        direction := some (if 0 < delta then .negative else .positive),
        current := some c, expected := some b, delta := some delta,
        confidence := none })
  | _, _ => none

/-- A row of the season_stats table joined with the player name.  Rate stats
are nullable, mirroring the relational schema. -/
structure SeasonRow where
  player_id : ℕ
  season : ℤ
  team : String
  pa : ℕ
  games : ℕ
  avg : Option ℚ
  obp : Option ℚ
  slg : Option ℚ
  woba : Option ℚ
  wrc_plus : Option ℚ
  babip : Option ℚ
  bb_pct : Option ℚ
  k_pct : Option ℚ
  iso : Option ℚ
  hr_fb_pct : Option ℚ
deriving DecidableEq

/-- SQL AVG over a nullable column: NULL values are ignored; NULL when no
non-NULL value exists. -/
def avgOpt (xs : List (Option ℚ)) : Option ℚ :=
  let vs := xs.filterMap id
  if vs.isEmpty then none else some (vs.sum / vs.length)

/-- Career-baseline record returned by `_get_player_career_baseline`. -/
structure CareerBaseline where
  career_babip : Option ℚ
  career_bb_pct : Option ℚ
  career_k_pct : Option ℚ
  career_iso : Option ℚ
  career_hr_fb_pct : Option ℚ
  total_pa : ℕ
  seasons : ℕ
deriving DecidableEq

/-- The rows aggregated by `_get_player_career_baseline`: same player, prior
seasons only, PA ≥ 50. -/
def careerRows (db : List SeasonRow) (player_id : ℕ) (current_season : ℤ) :
    List SeasonRow :=
  db.filter (fun r =>
    r.player_id == player_id && decide (r.season < current_season) &&
      decide (50 ≤ r.pa))

/-- Cumulative career PA over the player's prior seasons with PA ≥ 50. -/
def careerPA (db : List SeasonRow) (player_id : ℕ) (current_season : ℤ) : ℕ :=
  ((careerRows db player_id current_season).map (·.pa)).sum

/-- `RegressionDetector._get_player_career_baseline`: SQL aggregate over the
prior PA ≥ 50 seasons; non-null only when rows exist (SUM is non-NULL and
nonzero) and cumulative PA ≥ 200. -/
def get_player_career_baseline (db : List SeasonRow) (player_id : ℕ)
    (current_season : ℤ) : Option CareerBaseline :=
  let rows := careerRows db player_id current_season
  let total := (rows.map (·.pa)).sum
  if ¬ rows.isEmpty ∧ 200 ≤ total then
    some { career_babip := avgOpt (rows.map (·.babip)),
           career_bb_pct := avgOpt (rows.map (·.bb_pct)),
           career_k_pct := avgOpt (rows.map (·.k_pct)),
           career_iso := avgOpt (rows.map (·.iso)),
           career_hr_fb_pct := avgOpt (rows.map (·.hr_fb_pct)),
           total_pa := total, seasons := rows.length }
  else none

/-- The current-season row fetched by `analyze_player_season`. -/
def findSeasonRow (db : List SeasonRow) (player_id : ℕ) (season : ℤ) :
    Option SeasonRow :=
  db.find? (fun r => r.player_id == player_id && r.season == season)

/-- Current-season stats embedded in a `SeasonAnalysis`. -/
structure CurrentStats where
  avg : Option ℚ
  obp : Option ℚ
  slg : Option ℚ
  woba : Option ℚ
  wrc_plus : Option ℚ
  babip : Option ℚ
  bb_pct : Option ℚ
  k_pct : Option ℚ
  iso : Option ℚ
  hr_fb_pct : Option ℚ
deriving DecidableEq

/-- Result record of `RegressionDetector.analyze_player_season`. -/
structure SeasonAnalysis where
  player_id : ℕ
  season : ℤ
  team : String
  pa : ℕ
  games : ℕ
  current_stats : CurrentStats
  career_baseline : CareerBaseline
  alerts : List Alert
  alert_count : ℕ
  max_tier : Option ℕ
  buy_signals : ℕ
  sell_signals : ℕ
  net_signal : ℤ
deriving DecidableEq

/-- `RegressionDetector.analyze_player_season`: null when the season row is
missing or the career baseline is insufficient; otherwise runs the five
metric detectors against the career baseline and aggregates the signals. -/
def analyze_player_season (db : List SeasonRow) (player_id : ℕ) (season : ℤ) :
    Option SeasonAnalysis :=
  match findSeasonRow db player_id season with
  | none => none
  | some row =>
    match get_player_career_baseline db player_id season with
    | none => none
    | some cb =>
      let alerts :=
        ([detect_babip_regression row.babip cb.career_babip,
          detect_k_rate_regression row.k_pct cb.career_k_pct,
          detect_bb_rate_regression row.bb_pct cb.career_bb_pct,
          detect_iso_regression row.iso cb.career_iso,
          detect_hr_fb_regression row.hr_fb_pct cb.career_hr_fb_pct]).filterMap id
      let buy_signals := (alerts.filter (fun a => a.signal == .BUY)).length
      let sell_signals := (alerts.filter (fun a => a.signal == .SELL)).length
      some { player_id := player_id, season := season, team := row.team,
             pa := row.pa, games := row.games,
             current_stats :=
               { avg := row.avg, obp := row.obp, slg := row.slg,
                 woba := row.woba, wrc_plus := row.wrc_plus, babip := row.babip,
                 bb_pct := row.bb_pct, k_pct := row.k_pct, iso := row.iso,
                 hr_fb_pct := row.hr_fb_pct },
             career_baseline := cb, alerts := alerts,
             alert_count := alerts.length,
             max_tier := (alerts.map (·.tier)).min?,
             buy_signals := buy_signals, sell_signals := sell_signals,
             net_signal := (buy_signals : ℤ) - (sell_signals : ℤ) }

theorem get_player_career_baseline_none_iff (db : List SeasonRow)
    (player_id : ℕ) (season : ℤ) :
    get_player_career_baseline db player_id season = none ↔
      careerPA db player_id season < 200 := by
  simp only [get_player_career_baseline, careerPA]
  constructor
  · intro h
    by_contra hlt
    push_neg at hlt
    have hne : ¬ (careerRows db player_id season).isEmpty = true := by
      intro he
      rw [List.isEmpty_iff] at he
      rw [he] at hlt
      simp at hlt
    rw [if_pos ⟨hne, hlt⟩] at h
    exact Option.noConfusion h
  · intro h
    rw [if_neg]
    rintro ⟨-, htot⟩
    omega

/-- C1: `analyze_player_season` returns null exactly when the season row is
missing or the cumulative career PA over prior PA ≥ 50 seasons is below 200;
equivalently, every non-null analysis has cumulative career PA ≥ 200. -/
theorem analyze_player_season_none_iff (db : List SeasonRow) (player_id : ℕ)
    (season : ℤ) :
    analyze_player_season db player_id season = none ↔
      (findSeasonRow db player_id season = none ∨
        careerPA db player_id season < 200) := by
  have hbase := get_player_career_baseline_none_iff db player_id season
  unfold analyze_player_season
  rcases hrow : findSeasonRow db player_id season with _ | row
  · simp only [hrow]
    simp
  · rcases hcb : get_player_career_baseline db player_id season with _ | cb
    · simp only [hrow, hcb]
      constructor
      · intro _
        exact Or.inr (hbase.mp hcb)
      · intro _
        trivial
    · have h200 : ¬ careerPA db player_id season < 200 := by
        intro hlt
        rw [hbase.mpr hlt] at hcb
        exact Option.noConfusion hcb
      simp only [hrow, hcb]
      simp [h200]

/-- C4: tier classification of a BABIP delta is boundary-exact with inclusive
thresholds on the absolute delta: ≥ 0.050 is tier 1, [0.030, 0.050) is tier 2,
[0.015, 0.030) is tier 3, and below 0.015 no tier is assigned and
`detect_babip_regression` emits no alert. -/
theorem babip_tier_boundary_exact (d : ℚ) :
    (0.050 ≤ |d| → determine_tier d 0.050 0.030 0.015 = some 1) ∧
    (0.030 ≤ |d| ∧ |d| < 0.050 → determine_tier d 0.050 0.030 0.015 = some 2) ∧
    (0.015 ≤ |d| ∧ |d| < 0.030 → determine_tier d 0.050 0.030 0.015 = some 3) ∧
    (|d| < 0.015 → determine_tier d 0.050 0.030 0.015 = none ∧
      ∀ current career : ℚ, current - career = d →
        detect_babip_regression (some current) (some career) = none) := by
  refine ⟨?_, ?_, ?_, ?_⟩
  · intro h1
    unfold determine_tier
    rw [if_pos h1]
  · rintro ⟨h2, h1⟩
    unfold determine_tier
    rw [if_neg (by linarith), if_pos h2]
  · rintro ⟨h3, h2⟩
    unfold determine_tier
    rw [if_neg (by linarith), if_neg (by linarith), if_pos h3]
  · intro h3
    have ht : determine_tier d 0.050 0.030 0.015 = none := by
      unfold determine_tier
      rw [if_neg (by linarith), if_neg (by linarith), if_neg (by linarith)]
    refine ⟨ht, ?_⟩
    intro current career hd
    simp only [detect_babip_regression]
    rw [hd, ht]
    rfl

/-- Witness for C4 at the boundary inputs named in the spec. -/
theorem babip_tier_boundary_exact_witness :
    determine_tier 0.050 0.050 0.030 0.015 = some 1 ∧
    determine_tier 0.0499999 0.050 0.030 0.015 = some 2 ∧
    determine_tier 0.015 0.050 0.030 0.015 = some 3 ∧
    determine_tier 0.0149999 0.050 0.030 0.015 = none ∧
    detect_babip_regression (some 0.3149999) (some 0.3) = none :=
  ⟨(babip_tier_boundary_exact 0.050).1
      (by rw [abs_of_nonneg (by norm_num)] <;> norm_num),
   (babip_tier_boundary_exact 0.0499999).2.1
     ⟨by rw [abs_of_nonneg (by norm_num)] <;> norm_num,
      by rw [abs_of_nonneg (by norm_num)] <;> norm_num⟩,
   (babip_tier_boundary_exact 0.015).2.2.1
     ⟨by rw [abs_of_nonneg (by norm_num)] <;> norm_num,
      by rw [abs_of_nonneg (by norm_num)] <;> norm_num⟩,
   ((babip_tier_boundary_exact 0.0149999).2.2.2
      (by rw [abs_of_nonneg (by norm_num)] <;> norm_num)).1,
   ((babip_tier_boundary_exact 0.0149999).2.2.2
      (by rw [abs_of_nonneg (by norm_num)] <;> norm_num)).2 0.3149999 0.3
     (by norm_num)⟩

/-! ## AdvancedPerformancePredictor (src/analytics/predictive_model.py) -/

/-- The fixed empirical aging table `AGE_CURVE` (ages 21-40). -/
def AGE_CURVE (age : ℤ) : Option ℤ :=
  if age = 21 then some (-8)
  else if age = 22 then some (-5)
  else if age = 23 then some (-3)
  else if age = 24 then some (-1)
  else if age = 25 then some 0
  else if age = 26 then some 1
  else if age = 27 then some 2
  else if age = 28 then some 2
  else if age = 29 then some 1
  else if age = 30 then some 0
  else if age = 31 then some (-1)
  else if age = 32 then some (-2)
  else if age = 33 then some (-3)
  else if age = 34 then some (-5)
  else if age = 35 then some (-7)
  else if age = 36 then some (-10)
  else if age = 37 then some (-13)
  else if age = 38 then some (-16)
  else if age = 39 then some (-20)
  else if age = 40 then some (-25)
  else none

/-- `AGE_CURVE.get(age, -25 if age > 40 else -8)` as used in
`get_age_adjustment`. -/
def ageCurveGet (age : ℤ) : ℤ :=
  (AGE_CURVE age).getD (if 40 < age then -25 else -8)

/-- `AdvancedPerformancePredictor.get_age_adjustment`: zero when either age is
falsy (None or 0), else the curve delta. -/
def get_age_adjustment (current_age next_age : Option ℤ) : ℤ :=
  match current_age, next_age with
  | some c, some n => if c = 0 ∨ n = 0 then 0 else ageCurveGet n - ageCurveGet c
  | _, _ => 0

/-- The age table as worded in the spec: the 21-40 table extended by -8 below
21 and -25 above 40. -/
def ageCurveSpec (age : ℤ) : ℤ :=
  if age < 21 then -8
  else if 40 < age then -25
  else (AGE_CURVE age).getD 0

theorem AGE_CURVE_eq_none_of_lt (a : ℤ) (h : a < 21) : AGE_CURVE a = none := by
  unfold AGE_CURVE
  iterate 20 rw [if_neg (by omega)]

theorem AGE_CURVE_eq_none_of_gt (a : ℤ) (h : 40 < a) : AGE_CURVE a = none := by
  unfold AGE_CURVE
  iterate 20 rw [if_neg (by omega)]

theorem ageCurveGet_eq_spec (a : ℤ) : ageCurveGet a = ageCurveSpec a := by
  by_cases h1 : a < 21
  · have hnone : AGE_CURVE a = none := AGE_CURVE_eq_none_of_lt a h1
    unfold ageCurveGet ageCurveSpec
    rw [hnone, if_pos h1]
    simp only [Option.getD_none]
    rw [if_neg (by omega)]
  · by_cases h2 : 40 < a
    · have hnone : AGE_CURVE a = none := AGE_CURVE_eq_none_of_gt a h2
      unfold ageCurveGet ageCurveSpec
      rw [hnone, if_neg h1, if_pos h2]
      simp only [Option.getD_none]
      rw [if_pos h2]
    · unfold ageCurveGet ageCurveSpec
      rw [if_neg h1, if_neg h2]
      have hl : 21 ≤ a := by omega
      have hu : a ≤ 40 := by omega
      interval_cases a <;> rfl

/-- C8: the age adjustment for a known age equals
`curve[next_age] - curve[current_age]` over the fixed 21-40 table extended by
-8 below 21 and -25 above 40, and is zero whenever an age is unknown. -/
theorem age_adjustment_curve (a : ℤ) :
    get_age_adjustment (some a) (some (a + 1))
        = ageCurveSpec (a + 1) - ageCurveSpec a ∧
    (∀ x : Option ℤ, get_age_adjustment none x = 0 ∧
      get_age_adjustment x none = 0) := by
  constructor
  · simp only [get_age_adjustment]
    by_cases h : a = 0 ∨ a + 1 = 0
    · rw [if_pos h]
      rcases h with h | h
      · subst h; rfl
      · have ha : a = -1 := by omega
        subst ha; rfl
    · rw [if_neg h]
      rw [ageCurveGet_eq_spec, ageCurveGet_eq_spec]
  · intro x
    constructor <;> (cases x <;> rfl)

/-- `AdvancedPerformancePredictor.calculate_plate_discipline_score`: the
truthiness guard `not all([...])` sends any missing-or-zero input to
(0, NONE); otherwise the score is 2 points per percentage point of K%/BB%
improvement, Python-rounded, with a threshold-based confidence label. -/
def calculate_plate_discipline_score
    (k_pct bb_pct career_k_pct career_bb_pct : Option ℚ) : ℤ × String :=
  match k_pct, bb_pct, career_k_pct, career_bb_pct with
  | some k, some bb, some ck, some cbb =>
    if k = 0 ∨ bb = 0 ∨ ck = 0 ∨ cbb = 0 then (0, "NONE")
    else
      let k_delta := k - ck
      let bb_delta := bb - cbb
      let total_score := -k_delta * 2 + bb_delta * 2
      let confidence :=
        if 3 ≤ |k_delta| ∨ 2 ≤ |bb_delta| then "HIGH"
        else if 1.5 ≤ |k_delta| ∨ 1 ≤ |bb_delta| then "MEDIUM"
        else "LOW"
      (pyRound total_score, confidence)
  | _, _, _, _ => (0, "NONE")

/-- `AdvancedPerformancePredictor.calculate_contact_quality_score`: the
truthiness guard sends any missing-or-zero input to (0, UNKNOWN); otherwise a
joint BABIP/ISO delta classification. -/
def calculate_contact_quality_score
    (babip career_babip iso career_iso : Option ℚ) : ℤ × String :=
  match babip, career_babip, iso, career_iso with
  | some b, some cb, some i, some ci =>
    if b = 0 ∨ cb = 0 ∨ i = 0 ∨ ci = 0 then (0, "UNKNOWN")
    else
      let babip_delta := b - cb
      let iso_delta := i - ci
      if 0.040 < babip_delta then
        if iso_delta < -0.030 then (-7, "LUCKY_SINGLES")
        else if 0.030 < iso_delta then (3, "IMPROVED_CONTACT")
        else (-4, "BABIP_DRIVEN")
      else if babip_delta < -0.040 then
        if 0.030 < iso_delta then (7, "UNLUCKY_POWER")
        else (5, "UNLUCKY")
      else (0, "NEUTRAL")
  | _, _, _, _ => (0, "UNKNOWN")

/-- C9: in the component scorers a stat equal to exactly 0 is treated the same
as a missing stat: any 0-or-null input yields (0, NONE) for plate discipline
and (0, UNKNOWN) for contact quality, even when all inputs are present. -/
theorem zero_stat_treated_as_missing (k bb ck cbb b cb i ci : Option ℚ) :
    ((k = none ∨ k = some 0 ∨ bb = none ∨ bb = some 0 ∨ ck = none ∨
        ck = some 0 ∨ cbb = none ∨ cbb = some 0) →
      calculate_plate_discipline_score k bb ck cbb = (0, "NONE")) ∧
    ((b = none ∨ b = some 0 ∨ cb = none ∨ cb = some 0 ∨ i = none ∨
        i = some 0 ∨ ci = none ∨ ci = some 0) →
      calculate_contact_quality_score b cb i ci = (0, "UNKNOWN")) := by
  constructor
  · intro h
    rcases k with _ | kv <;> rcases bb with _ | bbv <;> rcases ck with _ | ckv <;>
      rcases cbb with _ | cbbv <;> try rfl
    have hz : kv = 0 ∨ bbv = 0 ∨ ckv = 0 ∨ cbbv = 0 := by
      rcases h with h | h | h | h | h | h | h | h <;>
        first
          | exact Option.noConfusion h
          | exact Or.inl (Option.some.inj h)
          | exact Or.inr (Or.inl (Option.some.inj h))
          | exact Or.inr (Or.inr (Or.inl (Option.some.inj h)))
          | exact Or.inr (Or.inr (Or.inr (Option.some.inj h)))
    simp only [calculate_plate_discipline_score]
    rw [if_pos hz]
  · intro h
    rcases b with _ | bv <;> rcases cb with _ | cbv <;> rcases i with _ | iv <;>
      rcases ci with _ | civ <;> try rfl
    have hz : bv = 0 ∨ cbv = 0 ∨ iv = 0 ∨ civ = 0 := by
      rcases h with h | h | h | h | h | h | h | h <;>
        first
          | exact Option.noConfusion h
          | exact Or.inl (Option.some.inj h)
          | exact Or.inr (Or.inl (Option.some.inj h))
          | exact Or.inr (Or.inr (Or.inl (Option.some.inj h)))
          | exact Or.inr (Or.inr (Or.inr (Option.some.inj h)))
    simp only [calculate_contact_quality_score]
    rw [if_pos hz]

/-- Witness for C9: a genuinely present zero value produces the no-signal
outcome in both scorers. -/
theorem zero_stat_treated_as_missing_witness :
    calculate_plate_discipline_score (some 0) (some 8) (some 20) (some 7)
        = (0, "NONE") ∧
    calculate_contact_quality_score (some 0.3) (some 0.31) (some 0)
        (some 0.15) = (0, "UNKNOWN") :=
  ⟨(zero_stat_treated_as_missing (some 0) (some 8) (some 20) (some 7)
      (some 0.3) (some 0.31) (some 0) (some 0.15)).1 (Or.inr (Or.inl rfl)),
   (zero_stat_treated_as_missing (some 0) (some 8) (some 20) (some 7)
      (some 0.3) (some 0.31) (some 0) (some 0.15)).2
     (Or.inr (Or.inr (Or.inr (Or.inr (Or.inr (Or.inl rfl))))))⟩

/-- The projection record returned by `predict_next_season_advanced`
(prediction and range fields). -/
structure Projection where
  predicted_wrc : ℤ
  prediction_range : ℤ × ℤ
deriving DecidableEq

/-- The final assembly of `predict_next_season_advanced` (lines 333-363): the
composite predicted wRC+ is the weighted baseline plus the six component
adjustments; the returned range is predicted ± max(wrc_std, 10) with each
endpoint Python-rounded, and the returned prediction is the Python-rounded
composite. -/
def prediction_summary (baseline_wrc age_adj discipline_adj power_adj
    contact_adj skill_adj regression_adj wrc_std : ℚ) : Projection :=
  let predicted_wrc := baseline_wrc + age_adj + discipline_adj + power_adj +
    contact_adj + skill_adj + regression_adj
  let prediction_std := max wrc_std 10
  let lower_bound := predicted_wrc - prediction_std
  let upper_bound := predicted_wrc + prediction_std
  { predicted_wrc := pyRound predicted_wrc
    prediction_range := (pyRound lower_bound, pyRound upper_bound) }

theorem pyRound_range_width {p s : ℚ} (h : 10 ≤ s) :
    20 ≤ pyRound (p + s) - pyRound (p - s) := by
  have hm : (p - s) + 20 ≤ p + s := by linarith
  have h2 := pyRound_mono hm
  rw [pyRound_add_twenty] at h2
  omega

/-- C2: for every prediction produced by the final assembly,
prediction_range.1 ≤ predicted_wrc ≤ prediction_range.2, the range is the
prediction ± max(wRC+ std, 10) rounded to integers, and the range width is at
least 20. -/
theorem prediction_range_invariant (baseline_wrc age_adj discipline_adj
    power_adj contact_adj skill_adj regression_adj wrc_std : ℚ) :
    (prediction_summary baseline_wrc age_adj discipline_adj power_adj
        contact_adj skill_adj regression_adj wrc_std).prediction_range.1
        = pyRound ((baseline_wrc + age_adj + discipline_adj + power_adj +
            contact_adj + skill_adj + regression_adj) - max wrc_std 10) ∧
    (prediction_summary baseline_wrc age_adj discipline_adj power_adj
        contact_adj skill_adj regression_adj wrc_std).prediction_range.2
        = pyRound ((baseline_wrc + age_adj + discipline_adj + power_adj +
            contact_adj + skill_adj + regression_adj) + max wrc_std 10) ∧
    (prediction_summary baseline_wrc age_adj discipline_adj power_adj
        contact_adj skill_adj regression_adj wrc_std).prediction_range.1
        ≤ (prediction_summary baseline_wrc age_adj discipline_adj power_adj
            contact_adj skill_adj regression_adj wrc_std).predicted_wrc ∧
    (prediction_summary baseline_wrc age_adj discipline_adj power_adj
        contact_adj skill_adj regression_adj wrc_std).predicted_wrc
        ≤ (prediction_summary baseline_wrc age_adj discipline_adj power_adj
            contact_adj skill_adj regression_adj wrc_std).prediction_range.2 ∧
    20 ≤ (prediction_summary baseline_wrc age_adj discipline_adj power_adj
            contact_adj skill_adj regression_adj wrc_std).prediction_range.2
        - (prediction_summary baseline_wrc age_adj discipline_adj power_adj
            contact_adj skill_adj regression_adj wrc_std).prediction_range.1 := by
  have h10 : (10:ℚ) ≤ max wrc_std 10 := le_max_right _ _
  refine ⟨rfl, rfl, pyRound_mono (by linarith), pyRound_mono (by linarith),
    pyRound_range_width h10⟩

/-! ## StatcastRegressionDetector (src/analytics/statcast_regression_detector.py) -/

/-- A row of the statcast_data table. -/
structure StatcastRow where
  player_id : ℕ
  season : ℤ
  exit_velo : Option ℚ
  hard_hit_pct : Option ℚ
  barrel_pct : Option ℚ
  sweet_spot_pct : Option ℚ
  xba : Option ℚ
  xslg : Option ℚ
  xwoba : Option ℚ
  batted_balls : Option ℕ
deriving DecidableEq

/-- `float(x) if x else None`: Python truthiness conversion of a nullable
numeric (0 becomes None). -/
def floatIfTruthy (x : Option ℚ) : Option ℚ :=
  match x with
  | some v => if v = 0 then none else some v
  | none => none

/-- `int(x) if x else None` on a nullable count. -/
def intIfTruthy (x : Option ℕ) : Option ℕ :=
  match x with
  | some v => if v = 0 then none else some v
  | none => none

/-- The Statcast metrics dict built by `get_statcast_data`. -/
structure StatcastData where
  exit_velo : Option ℚ
  hard_hit_pct : Option ℚ
  barrel_pct : Option ℚ
  sweet_spot_pct : Option ℚ
  xba : Option ℚ
  xslg : Option ℚ
  xwoba : Option ℚ
  batted_balls : Option ℕ
deriving DecidableEq

/-- The statcast_data row fetched for a (player, season). -/
def findStatcastRow (sdb : List StatcastRow) (player_id : ℕ) (season : ℤ) :
    Option StatcastRow :=
  sdb.find? (fun r => r.player_id == player_id && r.season == season)

/-- `StatcastRegressionDetector.get_statcast_data`: None when no row exists;
otherwise the truthiness-converted metrics. -/
def get_statcast_data (sdb : List StatcastRow) (player_id : ℕ) (season : ℤ) :
    Option StatcastData :=
  (findStatcastRow sdb player_id season).map (fun r =>
    { exit_velo := floatIfTruthy r.exit_velo,
      hard_hit_pct := floatIfTruthy r.hard_hit_pct,
      barrel_pct := floatIfTruthy r.barrel_pct,
      sweet_spot_pct := floatIfTruthy r.sweet_spot_pct,
      xba := floatIfTruthy r.xba, xslg := floatIfTruthy r.xslg,
      xwoba := floatIfTruthy r.xwoba,
      batted_balls := intIfTruthy r.batted_balls })

/-- Career Statcast baseline record. -/
structure StatcastBaseline where
  career_exit_velo : Option ℚ
  career_hard_hit_pct : Option ℚ
  career_barrel_pct : Option ℚ
  career_sweet_spot_pct : Option ℚ
  seasons : ℕ
deriving DecidableEq

/-- The rows aggregated by `get_career_statcast_baseline`: same player, prior
seasons, batted_balls ≥ 50 (NULL batted_balls excluded, as in SQL). -/
def statcastCareerRows (sdb : List StatcastRow) (player_id : ℕ)
    (current_season : ℤ) : List StatcastRow :=
  sdb.filter (fun r =>
    r.player_id == player_id && decide (r.season < current_season) &&
      (match r.batted_balls with
       | some n => decide (50 ≤ n)
       | none => false))

/-- `StatcastRegressionDetector.get_career_statcast_baseline`: requires at
least 2 qualifying seasons. -/
def get_career_statcast_baseline (sdb : List StatcastRow) (player_id : ℕ)
    (current_season : ℤ) : Option StatcastBaseline :=
  let rows := statcastCareerRows sdb player_id current_season
  if 2 ≤ rows.length then
    some { career_exit_velo := floatIfTruthy (avgOpt (rows.map (·.exit_velo))),
           career_hard_hit_pct :=
             floatIfTruthy (avgOpt (rows.map (·.hard_hit_pct))),
           career_barrel_pct := floatIfTruthy (avgOpt (rows.map (·.barrel_pct))),
           career_sweet_spot_pct :=
             floatIfTruthy (avgOpt (rows.map (·.sweet_spot_pct))),
           seasons := rows.length }
  else none

/-- The current-season stats re-queried by
`analyze_player_season_with_statcast` (babip, iso, avg, slg, woba with
truthiness conversion). -/
structure ScCurrentStats where
  babip : Option ℚ
  iso : Option ℚ
  avg : Option ℚ
  slg : Option ℚ
  woba : Option ℚ
deriving DecidableEq

def statcastCurrentStats (row : SeasonRow) : ScCurrentStats :=
  { babip := floatIfTruthy row.babip, iso := floatIfTruthy row.iso,
    avg := floatIfTruthy row.avg, slg := floatIfTruthy row.slg,
    woba := floatIfTruthy row.woba }

/-- `detect_lucky_vs_unlucky`: BABIP vs hard-hit% divergence; the merged
career dict exposes career_hard_hit_pct only when the Statcast baseline was
merged in. -/
def detect_lucky_vs_unlucky (cs : ScCurrentStats) (sd : StatcastData)
    (cb : CareerBaseline) (scb : Option StatcastBaseline) : Option Alert :=
  match cs.babip, cb.career_babip, sd.hard_hit_pct,
      scb.bind (·.career_hard_hit_pct) with
  | some cbp, some cabp, some hh, some chh =>
    if cbp = 0 ∨ cabp = 0 ∨ hh = 0 ∨ chh = 0 then none
    else
      let babip_delta := cbp - cabp
      let hard_hit_delta := hh - chh
      if babip_delta < -0.040 ∧ 2 < hard_hit_delta then
        some { metric := "STATCAST_UNLUCKY", tier := 1, signal := .BUY,
               direction := none, current := none, expected := none,
               delta := none, confidence := some "HIGH" }
      else if 0.040 < babip_delta ∧ hard_hit_delta < -2 then
        some { metric := "STATCAST_LUCKY", tier := 1, signal := .SELL,
               direction := none, current := none, expected := none,
               delta := none, confidence := some "HIGH" }
      else none
  | _, _, _, _ => none

/-- `detect_power_sustainability`: ISO delta vs exit velocity and barrel%. -/
def detect_power_sustainability (cs : ScCurrentStats) (sd : StatcastData)
    (cb : CareerBaseline) (scb : Option StatcastBaseline) : Option Alert :=
  match cs.iso, cb.career_iso, sd.exit_velo, scb.bind (·.career_exit_velo),
      sd.barrel_pct, scb.bind (·.career_barrel_pct) with
  | some i, some ci, some ev, some cev, some bp, some cbp =>
    if i = 0 ∨ ci = 0 ∨ ev = 0 ∨ cev = 0 ∨ bp = 0 ∨ cbp = 0 then none
    else
      let iso_delta := i - ci
      let ev_delta := ev - cev
      let barrel_delta := bp - cbp
      if 0.060 < iso_delta ∧ ev_delta < 0 ∧ barrel_delta < 0 then
        some { metric := "UNSUSTAINABLE_POWER", tier := 1, signal := .SELL,
               direction := none, current := none, expected := none,
               delta := none, confidence := some "HIGH" }
      else if iso_delta < -0.050 ∧ 0 < ev_delta ∧ 1 < barrel_delta then
        some { metric := "UNLUCKY_POWER", tier := 1, signal := .BUY,
               direction := none, current := none, expected := none,
               delta := none, confidence := some "HIGH" }
      else none
  | _, _, _, _, _, _ => none

/-- `detect_exit_velo_decline`: tier-2 SELL when exit velocity is down more
than 2 mph from the career Statcast baseline. -/
def detect_exit_velo_decline (sd : StatcastData)
    (scb : Option StatcastBaseline) : Option Alert :=
  match scb with
  | none => none
  | some b =>
    match sd.exit_velo, b.career_exit_velo with
    | some ev, some cev =>
      if ev = 0 ∨ cev = 0 then none
      else
        let ev_delta := ev - cev
        if ev_delta < -2 then
          some { metric := "EV_DECLINE", tier := 2, signal := .SELL,
                 direction := none, current := none, expected := none,
                 delta := none, confidence := some "MEDIUM" }
        else none
    | _, _ => none

/-- `detect_expected_stats_divergence`: tier-2 signal from the wOBA vs xwOBA
gap. -/
def detect_expected_stats_divergence (cs : ScCurrentStats) (sd : StatcastData) :
    Option Alert :=
  match cs.woba, sd.xwoba with
  | some w, some xw =>
    if w = 0 ∨ xw = 0 then none
    else
      let woba_diff := w - xw
      if woba_diff < -0.020 then
        some { metric := "XWOBA_UNLUCKY", tier := 2, signal := .BUY,
               direction := none, current := none, expected := none,
               delta := none, confidence := some "MEDIUM" }
      else if 0.020 < woba_diff then
        some { metric := "XWOBA_LUCKY", tier := 2, signal := .SELL,
               direction := none, current := none, expected := none,
               delta := none, confidence := some "MEDIUM" }
      else none
  | _, _ => none

/-- Number of alerts with a given tier and signal. -/
def countAlerts (alerts : List Alert) (t : ℕ) (s : Signal) : ℕ :=
  (alerts.filter (fun a => a.tier == t && a.signal == s)).length

/-- Result record of the Statcast-enhanced analysis. -/
structure EnhancedAnalysis where
  player_id : ℕ
  season : ℤ
  alerts : List Alert
  net_score : ℚ
  tier1_buys : ℕ
  tier1_sells : ℕ
  tier2_buys : ℕ
  tier2_sells : ℕ
  has_statcast : Bool
  statcast_data : StatcastData
deriving DecidableEq

/-- `analyze_player_season_with_statcast` returns either the unchanged
traditional analysis (no Statcast row) or the enhanced record. -/
inductive StatcastAnalysis
  | traditional (t : SeasonAnalysis)
  | enhanced (e : EnhancedAnalysis)
deriving DecidableEq

/-- `StatcastRegressionDetector.analyze_player_season_with_statcast`. -/
def analyze_player_season_with_statcast (db : List SeasonRow)
    (sdb : List StatcastRow) (player_id : ℕ) (season : ℤ) :
    Option StatcastAnalysis :=
  match analyze_player_season db player_id season with
  | none => none
  | some traditional_analysis =>
    match get_statcast_data sdb player_id season with
    | none => some (.traditional traditional_analysis)
    | some statcast_data =>
      let statcast_baseline := get_career_statcast_baseline sdb player_id season
      match findSeasonRow db player_id season,
          get_player_career_baseline db player_id season with
      | some row, some career_baseline =>
        let current_stats := statcastCurrentStats row
        let statcast_alerts :=
          ([detect_lucky_vs_unlucky current_stats statcast_data career_baseline
              statcast_baseline,
            detect_power_sustainability current_stats statcast_data
              career_baseline statcast_baseline,
            detect_exit_velo_decline statcast_data statcast_baseline,
            detect_expected_stats_divergence current_stats
              statcast_data]).filterMap id
        let all_alerts := traditional_analysis.alerts ++ statcast_alerts
        let tier1_buys := countAlerts all_alerts 1 .BUY
        let tier1_sells := countAlerts all_alerts 1 .SELL
        let tier2_buys := countAlerts all_alerts 2 .BUY
        let tier2_sells := countAlerts all_alerts 2 .SELL
        some (.enhanced
          { player_id := player_id, season := season, alerts := all_alerts,
            net_score := ((tier1_buys : ℚ) - (tier1_sells : ℚ)) +
              ((tier2_buys : ℚ) - (tier2_sells : ℚ)) * 0.5,
            tier1_buys := tier1_buys, tier1_sells := tier1_sells,
            tier2_buys := tier2_buys, tier2_sells := tier2_sells,
            has_statcast := true, statcast_data := statcast_data })
      | _, _ => none

theorem analyze_some_parts (db : List SeasonRow) (player_id : ℕ) (season : ℤ)
    (t : SeasonAnalysis) (h : analyze_player_season db player_id season = some t) :
    ∃ row cb, findSeasonRow db player_id season = some row ∧
      get_player_career_baseline db player_id season = some cb := by
  unfold analyze_player_season at h
  rcases hrow : findSeasonRow db player_id season with _ | row
  · rw [hrow] at h
    exact absurd h (by simp)
  · rcases hcb : get_player_career_baseline db player_id season with _ | cb
    · rw [hrow, hcb] at h
      exact absurd h (by simp)
    · exact ⟨row, cb, rfl, rfl⟩

/-- C7: whenever the Statcast-enhanced analysis produces a result, then (a) if
no Statcast row exists for the (player, season) the result is exactly the
traditional analysis, unchanged; (b) any enhanced result has
net_score = (tier1 buys - tier1 sells) + 0.5 (tier2 buys - tier2 sells)
counted over its combined alert list; and (c) if a Statcast row exists the
result is an enhanced record. -/
theorem statcast_analysis_spec (db : List SeasonRow) (sdb : List StatcastRow)
    (player_id : ℕ) (season : ℤ) (r : StatcastAnalysis)
    (h : analyze_player_season_with_statcast db sdb player_id season = some r) :
    (findStatcastRow sdb player_id season = none →
      ∃ t, analyze_player_season db player_id season = some t ∧
        r = StatcastAnalysis.traditional t) ∧
    (∀ e, r = StatcastAnalysis.enhanced e →
      e.net_score = ((countAlerts e.alerts 1 .BUY : ℚ) -
          (countAlerts e.alerts 1 .SELL : ℚ)) +
        ((countAlerts e.alerts 2 .BUY : ℚ) -
          (countAlerts e.alerts 2 .SELL : ℚ)) * 0.5) ∧
    (∀ sr, findStatcastRow sdb player_id season = some sr →
      ∃ e, r = StatcastAnalysis.enhanced e) := by
  unfold analyze_player_season_with_statcast at h
  rcases hta : analyze_player_season db player_id season with _ | t
  · rw [hta] at h
    exact absurd h (by simp)
  · rw [hta] at h
    rcases hsd : get_statcast_data sdb player_id season with _ | sd
    · rw [hsd] at h
      have hr : r = StatcastAnalysis.traditional t := (Option.some.inj h).symm
      refine ⟨fun _ => ⟨t, rfl, hr⟩, ?_, ?_⟩
      · intro e he
        rw [hr] at he
        exact absurd he (by simp)
      · intro sr hsr
        unfold get_statcast_data at hsd
        rw [hsr] at hsd
        exact absurd hsd (by simp)
    · rw [hsd] at h
      obtain ⟨row, cb, hrow, hcb⟩ := analyze_some_parts db player_id season t hta
      rw [hrow, hcb] at h
      have hr := (Option.some.inj h).symm
      refine ⟨?_, ?_, ?_⟩
      · intro hnone
        unfold get_statcast_data at hsd
        rw [hnone] at hsd
        exact absurd hsd (by simp)
      · intro e he
        rw [hr] at he
        have := StatcastAnalysis.enhanced.inj he
        rw [← this]
      · intro sr hsr
        exact ⟨_, hr⟩

/-! ## TrendTracker (src/analytics/trend_tracker.py) -/

/-- The career trajectory rows of `get_player_career_trajectory`: the
player's PA ≥ 50 seasons, in season order (the embedding takes the row list
in the order returned by the ORDER BY season query). -/
def trajectoryRows (db : List SeasonRow) (player_id : ℕ) : List SeasonRow :=
  db.filter (fun r => r.player_id == player_id && decide (50 ≤ r.pa))

/-- The PA ≥ 200 subset used by `identify_career_peak`. -/
def meaningfulRows (db : List SeasonRow) (player_id : ℕ) : List SeasonRow :=
  (trajectoryRows db player_id).filter (fun r => 200 ≤ r.pa)

/-- pandas `idxmax` over the wrc_plus column: the first row attaining the
maximum, skipping nulls; none when every value is null. -/
def firstMaxWrc : List SeasonRow → Option (SeasonRow × ℚ)
  | [] => none
  | r :: rest =>
    match r.wrc_plus, firstMaxWrc rest with
    | none, tail => tail
    | some v, none => some (r, v)
    | some v, some (r2, v2) => if v < v2 then some (r2, v2) else some (r, v)

/-- Result record of `TrendTracker.identify_career_peak`. -/
structure CareerPeak where
  peak_season : ℤ
  peak_wrc_plus : ℤ
  peak_pa : ℕ
  current_season : ℤ
  current_wrc_plus : ℤ
  at_peak : Bool
  years_since_peak : ℤ
  career_seasons : ℕ
deriving DecidableEq

/-- `TrendTracker.identify_career_peak`: peak = (first) maximum-wRC+ season
among PA ≥ 200 seasons, latest = last such season; none when the trajectory
or the meaningful subset is empty, or when the required wRC+ values are null
(where the source would raise on int(NaN)). -/
def identify_career_peak (db : List SeasonRow) (player_id : ℕ) :
    Option CareerPeak :=
  if (trajectoryRows db player_id).isEmpty then none
  else if (meaningfulRows db player_id).isEmpty then none
  else
    match firstMaxWrc (meaningfulRows db player_id),
        (meaningfulRows db player_id).getLast? with
    | some (peak, pv), some latest =>
      match latest.wrc_plus with
      | none => none
      | some lv =>
        some { peak_season := peak.season, peak_wrc_plus := pyTrunc pv,
               peak_pa := peak.pa, current_season := latest.season,
               current_wrc_plus := pyTrunc lv,
               at_peak := decide (pv * 0.95 ≤ lv),
               years_since_peak := latest.season - peak.season,
               career_seasons := (meaningfulRows db player_id).length }
    | _, _ => none

theorem firstMaxWrc_none {l : List SeasonRow} (h : firstMaxWrc l = none) :
    ∀ x ∈ l, x.wrc_plus = none := by
  induction l with
  | nil => intro x hx; exact absurd hx (by simp)
  | cons r rest ih =>
    intro x hx
    rcases hw : r.wrc_plus with _ | v0
    · simp only [firstMaxWrc, hw] at h
      rcases List.mem_cons.mp hx with rfl | hx2
      · exact hw
      · exact ih h x hx2
    · rcases hrest : firstMaxWrc rest with _ | ⟨r2, v2⟩
      · simp only [firstMaxWrc, hw, hrest] at h
        exact absurd h (by simp)
      · simp only [firstMaxWrc, hw, hrest] at h
        by_cases hc : v0 < v2
        · rw [if_pos hc] at h
          exact absurd h (by simp)
        · rw [if_neg hc] at h
          exact absurd h (by simp)

theorem firstMaxWrc_spec {l : List SeasonRow} {p : SeasonRow} {v : ℚ}
    (h : firstMaxWrc l = some (p, v)) :
    p ∈ l ∧ p.wrc_plus = some v ∧
      ∀ x ∈ l, ∀ w, x.wrc_plus = some w → w ≤ v := by
  induction l generalizing p v with
  | nil => exact absurd h (by simp [firstMaxWrc])
  | cons r rest ih =>
    rcases hw : r.wrc_plus with _ | v0
    · simp only [firstMaxWrc, hw] at h
      obtain ⟨hm, hwrc, hmax⟩ := ih h
      refine ⟨List.mem_cons_of_mem _ hm, hwrc, ?_⟩
      intro x hx w hxw
      rcases List.mem_cons.mp hx with rfl | hx2
      · rw [hw] at hxw
        exact absurd hxw (by simp)
      · exact hmax x hx2 w hxw
    · rcases hrest : firstMaxWrc rest with _ | ⟨r2, v2⟩
      · simp only [firstMaxWrc, hw, hrest] at h
        have hpr : r = p ∧ v0 = v := by
          have h2 : (r, v0) = (p, v) := by
            exact_mod_cast congrArg (fun o => o.getD (r, v0)) h
          exact ⟨congrArg Prod.fst h2, congrArg Prod.snd h2⟩
        obtain ⟨rfl, rfl⟩ := hpr
        refine ⟨List.mem_cons_self _ _, hw, ?_⟩
        intro x hx w hxw
        rcases List.mem_cons.mp hx with rfl | hx2
        · rw [hw] at hxw
          exact le_of_eq (Option.some.inj hxw.symm)
        · rw [firstMaxWrc_none hrest x hx2] at hxw
          exact absurd hxw (by simp)
      · obtain ⟨hm2, hw2, hmax2⟩ := ih hrest
        simp only [firstMaxWrc, hw, hrest] at h
        by_cases hc : v0 < v2
        · rw [if_pos hc] at h
          have hpr : r2 = p ∧ v2 = v := by
            have h2 : (r2, v2) = (p, v) := by
              exact_mod_cast congrArg (fun o => o.getD (r2, v2)) h
            exact ⟨congrArg Prod.fst h2, congrArg Prod.snd h2⟩
          obtain ⟨rfl, rfl⟩ := hpr
          refine ⟨List.mem_cons_of_mem _ hm2, hw2, ?_⟩
          intro x hx w hxw
          rcases List.mem_cons.mp hx with rfl | hx2
          · rw [hw] at hxw
            have hv := Option.some.inj hxw
            linarith [le_of_lt hc, le_of_eq hv.symm]
          · exact hmax2 x hx2 w hxw
        · rw [if_neg hc] at h
          have hpr : r = p ∧ v0 = v := by
            have h2 : (r, v0) = (p, v) := by
              exact_mod_cast congrArg (fun o => o.getD (r, v0)) h
            exact ⟨congrArg Prod.fst h2, congrArg Prod.snd h2⟩
          obtain ⟨rfl, rfl⟩ := hpr
          refine ⟨List.mem_cons_self _ _, hw, ?_⟩
          intro x hx w hxw
          rcases List.mem_cons.mp hx with rfl | hx2
          · rw [hw] at hxw
            exact le_of_eq (Option.some.inj hxw.symm)
          · have hle := hmax2 x hx2 w hxw
            push_neg at hc
            linarith


theorem getLast?_mem_list :
    ∀ {l : List SeasonRow} {a : SeasonRow}, l.getLast? = some a → a ∈ l := by
  intro l
  induction l with
  | nil => intro a h; exact absurd h (by simp)
  | cons x t ih =>
    intro a h
    rcases t with _ | ⟨y, t2⟩
    · have hx : x = a := by simpa using h
      simp [hx]
    · rw [List.getLast?_cons_cons] at h
      exact List.mem_cons_of_mem _ (ih h)

theorem pairwise_season_getLast :
    ∀ {l : List SeasonRow},
      l.Pairwise (fun a b => a.season ≤ b.season) →
      ∀ {y : SeasonRow}, l.getLast? = some y →
      ∀ x ∈ l, x.season ≤ y.season := by
  intro l
  induction l with
  | nil => intro _ y hl; exact absurd hl (by simp)
  | cons a t ih =>
    intro hp y hl x hx
    rcases t with _ | ⟨b, t2⟩
    · have hy : a = y := by simpa using hl
      have hxa : x = a := by simpa using hx
      rw [hxa, hy]
    · rw [List.getLast?_cons_cons] at hl
      obtain ⟨hab, hpt⟩ := List.pairwise_cons.mp hp
      rcases List.mem_cons.mp hx with rfl | hx2
      · exact hab y (getLast?_mem_list hl)
      · exact ih hpt hl x hx2

/-- C10: every non-null result of `identify_career_peak` (over a season-sorted
row list, as produced by ORDER BY season) satisfies years_since_peak ≥ 0 and
current_wrc_plus ≤ peak_wrc_plus: the peak is the maximum-wRC+ season of the
same PA ≥ 200 set that contains the latest season. -/
theorem career_peak_invariant (db : List SeasonRow) (player_id : ℕ)
    (r : CareerPeak)
    (hsorted : db.Pairwise (fun a b => a.season ≤ b.season))
    (h : identify_career_peak db player_id = some r) :
    0 ≤ r.years_since_peak ∧ r.current_wrc_plus ≤ r.peak_wrc_plus := by
  have hpw : (meaningfulRows db player_id).Pairwise
      (fun a b => a.season ≤ b.season) :=
    hsorted.sublist ((List.filter_sublist _).trans (List.filter_sublist _))
  unfold identify_career_peak at h
  by_cases h1 : (trajectoryRows db player_id).isEmpty
  · rw [if_pos h1] at h
    exact absurd h (by simp)
  rw [if_neg h1] at h
  by_cases h2 : (meaningfulRows db player_id).isEmpty
  · rw [if_pos h2] at h
    exact absurd h (by simp)
  rw [if_neg h2] at h
  rcases hfm : firstMaxWrc (meaningfulRows db player_id) with _ | ⟨peak, pv⟩
  · simp only [hfm] at h
    exact absurd h (by simp)
  · rcases hlast : (meaningfulRows db player_id).getLast? with _ | latest
    · simp only [hfm, hlast] at h
      exact absurd h (by simp)
    · simp only [hfm, hlast] at h
      rcases hwl : latest.wrc_plus with _ | lv
      · simp only [hwl] at h
        exact absurd h (by simp)
      · simp only [hwl] at h
        have hr := (Option.some.inj h).symm
        obtain ⟨hpmem, hpwrc, hmax⟩ := firstMaxWrc_spec hfm
        have hse : peak.season ≤ latest.season :=
          pairwise_season_getLast hpw hlast peak hpmem
        have hwle : lv ≤ pv := hmax latest (getLast?_mem_list hlast) lv hwl
        rw [hr]
        constructor
        · show (0:ℤ) ≤ latest.season - peak.season
          omega
        · show pyTrunc lv ≤ pyTrunc pv
          exact pyTrunc_mono hwle

/-- Single-row database for the C10 witness. -/
def dbPeakW : List SeasonRow :=
  [{ player_id := 1, season := 2024, team := "", pa := 400, games := 100,
     avg := none, obp := none, slg := none, woba := none,
     wrc_plus := some 120, babip := none, bb_pct := none, k_pct := none,
     iso := none, hr_fb_pct := none }]

/-- The career peak computed on `dbPeakW`. -/
def peakW : CareerPeak :=
  { peak_season := 2024, peak_wrc_plus := pyTrunc 120, peak_pa := 400,
    current_season := 2024, current_wrc_plus := pyTrunc 120,
    at_peak := decide ((120 : ℚ) * 0.95 ≤ (120 : ℚ)),
    years_since_peak := 0, career_seasons := 1 }

/-- Witness for C10 at a concrete one-season database. -/
theorem career_peak_invariant_witness :
    0 ≤ peakW.years_since_peak ∧ peakW.current_wrc_plus ≤ peakW.peak_wrc_plus :=
  career_peak_invariant dbPeakW 1 peakW (by simp [dbPeakW]) (by rfl)

/-- Three-row database for the C7 witness: one current season and 250 prior
PA. -/
def dbW : List SeasonRow :=
  [{ player_id := 1, season := 2025, team := "", pa := 300, games := 100,
     avg := none, obp := none, slg := none, woba := none, wrc_plus := none,
     babip := none, bb_pct := none, k_pct := none, iso := none,
     hr_fb_pct := none },
   { player_id := 1, season := 2024, team := "", pa := 150, games := 50,
     avg := none, obp := none, slg := none, woba := none, wrc_plus := none,
     babip := none, bb_pct := none, k_pct := none, iso := none,
     hr_fb_pct := none },
   { player_id := 1, season := 2023, team := "", pa := 100, games := 40,
     avg := none, obp := none, slg := none, woba := none, wrc_plus := none,
     babip := none, bb_pct := none, k_pct := none, iso := none,
     hr_fb_pct := none }]

/-- The traditional analysis computed on `dbW`. -/
def tradW : SeasonAnalysis :=
  { player_id := 1, season := 2025, team := "", pa := 300, games := 100,
    current_stats :=
      { avg := none, obp := none, slg := none, woba := none, wrc_plus := none,
        babip := none, bb_pct := none, k_pct := none, iso := none,
        hr_fb_pct := none },
    career_baseline :=
      { career_babip := none, career_bb_pct := none, career_k_pct := none,
        career_iso := none, career_hr_fb_pct := none, total_pa := 250,
        seasons := 2 },
    alerts := [], alert_count := 0, max_tier := none, buy_signals := 0,
    sell_signals := 0, net_signal := 0 }

/-- Witness for C7: with no Statcast row the result is exactly the
traditional analysis. -/
theorem statcast_analysis_spec_witness :
    analyze_player_season dbW 1 2025 = some tradW ∧
    analyze_player_season_with_statcast dbW [] 1 2025
        = some (StatcastAnalysis.traditional tradW) := by
  have h0 : analyze_player_season_with_statcast dbW [] 1 2025
      = some (StatcastAnalysis.traditional tradW) := by rfl
  obtain ⟨t, ht, hr⟩ := (statcast_analysis_spec dbW [] 1 2025
      (StatcastAnalysis.traditional tradW) h0).1 rfl
  have htw : tradW = t := StatcastAnalysis.traditional.inj hr
  refine ⟨?_, h0⟩
  rw [htw]
  exact ht

end BaseballAnalytics
